import Mathlib

/-!
Verification of the litelitedram repository's register-bus bridge
(`src/litelitedram/ddr3.py`, class `SlowDDR3`), its construction-time
configuration checks, its command-pad inversion logic, and the
`get_signals` helper of `src/litelitedram/utils.py`.

The bridge is a single migen combinational block (`self.comb += [...]`,
ddr3.py lines 64-84).  Migen lowers a combinational statement list to one
`always @(*)` Verilog block per target group: first every target signal is
assigned its reset value (0 for all signals here), then the statements run
in order, with nonblocking assignment semantics (this is also how the
migen simulator evaluates combinational statements: assignments of a pass
are committed at the end of the pass, reads take the values committed by
the previous pass, and passes repeat until the signal values settle).
We embed this faithfully as a pass function `combPass` taking the
previous settled values `p`, and define the observed outputs
`slowDDR3Comb` as the settled state, reached after at most four passes;
`combPass_fixpoint` proves settledness.

The statements being modelled (ddr3.py):

    wb_valid.eq(bus.cyc & bus.stb),
    If(wb_valid,
        bus.adr.eq(sysio.addr),
        If(bus.we,
            bus.dat_w.eq(sysio.wr_data),
            sysio.sel.eq(bus.sel),
            bus.ack.eq(sysio.wr_ready),
            sysio.wr_valid.eq(1),
        ).Else(
            bus.dat_r.eq(sysio.rd_data),
            bus.ack.eq(sysio.rd_ready),
            sysio.rd_ready.eq(1),
        ),
    ),

Signals read by the block and not driven by it are block inputs
(`CombIn`): bus.cyc, bus.stb, bus.we, bus.sel from the register-bus
master, sysio.rd_data, sysio.wr_ready (and sysio.rd_valid, which the
block never reads) from the controller instance, and sysio.addr,
sysio.wr_data, which in the elaborated design have no driver at all (the
controller instance only reads them) and therefore sit at their reset
value 0; we keep them as free inputs so that the direction of each
assignment stays visible.  Signals assigned by the block are its outputs
(`CombOut`).
-/

namespace SlowDDR3

/-- Signals the combinational bridge block reads but does not drive. -/
structure CombIn where
  cyc : Bool
  stb : Bool
  we : Bool
  sel : Nat
  sysio_addr : Nat
  sysio_wr_data : Nat
  sysio_rd_data : Nat
  wr_ready : Bool
  rd_valid : Bool
  deriving Repr, DecidableEq

/-- Signals the combinational bridge block drives. -/
structure CombOut where
  wb_valid : Bool
  adr : Nat
  dat_w : Nat
  sysio_sel : Nat
  ack : Bool
  wr_valid : Bool
  dat_r : Nat
  rd_ready : Bool
  deriving Repr, DecidableEq

/-- Reset values of the block's target signals: migen signals reset to 0. -/
def combReset : CombOut :=
  { wb_valid := false, adr := 0, dat_w := 0, sysio_sel := 0,
    ack := false, wr_valid := false, dat_r := 0, rd_ready := false }

/-- One evaluation pass of the lowered always block: every target starts
at its reset value, then the statements run in source order; a read of a
signal that the block itself drives yields the value `p` committed by the
previous pass (nonblocking semantics).  In particular the guard
`If(wb_valid, ...)` reads the previous pass's wb_valid, and
`bus.ack.eq(sysio.rd_ready)` reads the previous pass's rd_ready. -/
def combPass (i : CombIn) (p : CombOut) : CombOut :=
  let s := combReset
  let s := { s with wb_valid := i.cyc && i.stb }
  if p.wb_valid then
    let s := { s with adr := i.sysio_addr }
    if i.we then
      { s with dat_w := i.sysio_wr_data, sysio_sel := i.sel,
               ack := i.wr_ready, wr_valid := true }
    else
      { s with dat_r := i.sysio_rd_data, ack := p.rd_ready,
               rd_ready := true }
  else s

/-- The settled values of the block's outputs: iterating `combPass` from
reset reaches a fixpoint within four passes (proved below). -/
def slowDDR3Comb (i : CombIn) : CombOut :=
  combPass i (combPass i (combPass i (combPass i combReset)))

/-- A transaction cycle is active iff cycle and strobe are both high. -/
def activeCycle (i : CombIn) : Bool := i.cyc && i.stb

end SlowDDR3

open SlowDDR3

/-- The settled state really is a fixpoint of the evaluation pass, so
`slowDDR3Comb` is the value an event-driven simulator (or the settled
netlist) exhibits. -/
theorem combPass_fixpoint (i : CombIn) :
    combPass i (slowDDR3Comb i) = slowDDR3Comb i := by
  cases hc : i.cyc <;> cases hs : i.stb <;> cases hw : i.we <;>
    simp [slowDDR3Comb, combPass, combReset, hc, hs, hw]

/-- Settled outputs, written directly as functions of the inputs. -/
theorem slowDDR3Comb_eq (i : CombIn) :
    slowDDR3Comb i =
      if i.cyc && i.stb then
        if i.we then
          { wb_valid := true, adr := i.sysio_addr, dat_w := i.sysio_wr_data,
            sysio_sel := i.sel, ack := i.wr_ready, wr_valid := true,
            dat_r := 0, rd_ready := false }
        else
          { wb_valid := true, adr := i.sysio_addr, dat_w := 0,
            sysio_sel := 0, ack := true, wr_valid := false,
            dat_r := i.sysio_rd_data, rd_ready := true }
      else
        { combReset with wb_valid := i.cyc && i.stb } := by
  cases hc : i.cyc <;> cases hs : i.stb <;> cases hw : i.we <;>
    simp [slowDDR3Comb, combPass, combReset, hc, hs, hw]

/-- C1: during an active write transaction (cyc=1, stb=1, we=1) the
bridge's acknowledge output equals the controller's write-ready signal in
the same cycle; in particular ack is never asserted while wr_ready is
deasserted. -/
theorem C1_write_ack_eq_wr_ready (i : CombIn)
    (hc : i.cyc = true) (hs : i.stb = true) (hw : i.we = true) :
    (slowDDR3Comb i).ack = i.wr_ready := by
  simp [slowDDR3Comb_eq, hc, hs, hw]

/-- C1 witness: a concrete active write cycle with wr_ready low. -/
theorem C1_write_ack_eq_wr_ready_witness :
    (slowDDR3Comb
      { cyc := true, stb := true, we := true, sel := 3, sysio_addr := 0,
        sysio_wr_data := 0, sysio_rd_data := 0, wr_ready := false,
        rd_valid := false }).ack = false :=
  C1_write_ack_eq_wr_ready
    { cyc := true, stb := true, we := true, sel := 3, sysio_addr := 0,
      sysio_wr_data := 0, sysio_rd_data := 0, wr_ready := false,
      rd_valid := false } rfl rfl rfl

/-- C2 failing input: in an active read cycle (cyc=1, stb=1, we=0) with
rd_valid deasserted, the code asserts ack anyway (ack settles to the
value of rd_ready, which the branch itself drives to 1), so ack does not
equal rd_valid. -/
theorem C2_read_ack_ignores_rd_valid :
    let i : CombIn :=
      { cyc := true, stb := true, we := false, sel := 0, sysio_addr := 0,
        sysio_wr_data := 0, sysio_rd_data := 0, wr_ready := false,
        rd_valid := false }
    (slowDDR3Comb i).ack = true ∧ i.rd_valid = false := by
  constructor <;> rfl

/-- C3 divergence: during an active write the code drives the register
bus's own adr and dat_w signals from the (undriven) controller-side
sysio.addr and sysio.wr_data wires - the reverse of the claimed
direction - while wr_valid is asserted as claimed.  The block has no
assignment targeting sysio.addr or sysio.wr_data at all. -/
theorem C3_write_drives_reversed (i : CombIn)
    (hc : i.cyc = true) (hs : i.stb = true) (hw : i.we = true) :
    (slowDDR3Comb i).dat_w = i.sysio_wr_data ∧
    (slowDDR3Comb i).adr = i.sysio_addr ∧
    (slowDDR3Comb i).wr_valid = true := by
  simp [slowDDR3Comb_eq, hc, hs, hw]

/-- C3 witness: concrete active write where the residual sysio values are
visibly copied onto the bus signals. -/
theorem C3_write_drives_reversed_witness :
    (slowDDR3Comb
      { cyc := true, stb := true, we := true, sel := 3, sysio_addr := 5,
        sysio_wr_data := 48879, sysio_rd_data := 0, wr_ready := true,
        rd_valid := false }).dat_w = 48879 ∧
    (slowDDR3Comb
      { cyc := true, stb := true, we := true, sel := 3, sysio_addr := 5,
        sysio_wr_data := 48879, sysio_rd_data := 0, wr_ready := true,
        rd_valid := false }).adr = 5 ∧
    (slowDDR3Comb
      { cyc := true, stb := true, we := true, sel := 3, sysio_addr := 5,
        sysio_wr_data := 48879, sysio_rd_data := 0, wr_ready := true,
        rd_valid := false }).wr_valid = true :=
  C3_write_drives_reversed
    { cyc := true, stb := true, we := true, sel := 3, sysio_addr := 5,
      sysio_wr_data := 48879, sysio_rd_data := 0, wr_ready := true,
      rd_valid := false } rfl rfl rfl

/-- C4: when no transaction is active (cyc AND stb false) every
bridge-driven output keeps its reset value 0: wr_valid, rd_ready,
sysio.sel and ack are all zero, so acknowledge is never asserted while
the transaction is inactive. -/
theorem C4_inactive_outputs_quiescent (i : CombIn)
    (h : (i.cyc && i.stb) = false) :
    (slowDDR3Comb i).wr_valid = false ∧
    (slowDDR3Comb i).rd_ready = false ∧
    (slowDDR3Comb i).sysio_sel = 0 ∧
    (slowDDR3Comb i).ack = false := by
  simp [slowDDR3Comb_eq, h, combReset]

/-- C4 witness: a concrete idle cycle. -/
theorem C4_inactive_outputs_quiescent_witness :
    (slowDDR3Comb
      { cyc := false, stb := true, we := true, sel := 3, sysio_addr := 7,
        sysio_wr_data := 9, sysio_rd_data := 11, wr_ready := true,
        rd_valid := true }).wr_valid = false ∧
    (slowDDR3Comb
      { cyc := false, stb := true, we := true, sel := 3, sysio_addr := 7,
        sysio_wr_data := 9, sysio_rd_data := 11, wr_ready := true,
        rd_valid := true }).rd_ready = false ∧
    (slowDDR3Comb
      { cyc := false, stb := true, we := true, sel := 3, sysio_addr := 7,
        sysio_wr_data := 9, sysio_rd_data := 11, wr_ready := true,
        rd_valid := true }).sysio_sel = 0 ∧
    (slowDDR3Comb
      { cyc := false, stb := true, we := true, sel := 3, sysio_addr := 7,
        sysio_wr_data := 9, sysio_rd_data := 11, wr_ready := true,
        rd_valid := true }).ack = false :=
  C4_inactive_outputs_quiescent
    { cyc := false, stb := true, we := true, sel := 3, sysio_addr := 7,
      sysio_wr_data := 9, sysio_rd_data := 11, wr_ready := true,
      rd_valid := true } rfl

/-- C5 counterexample: in an idle cycle (cyc=0, stb=0) the bridge drives
rd_ready to its reset value 0, not 1, so read-ready is NOT held asserted
whenever the bus is idle. -/
theorem C5_idle_rd_ready_low :
    let i : CombIn :=
      { cyc := false, stb := false, we := false, sel := 0, sysio_addr := 0,
        sysio_wr_data := 0, sysio_rd_data := 0, wr_ready := false,
        rd_valid := false }
    activeCycle i = false ∧ (slowDDR3Comb i).rd_ready = false := by
  constructor <;> rfl

/-- C5 amended: rd_ready is asserted exactly during active read
transactions (cyc=1, stb=1, we=0); it is deasserted whenever the bus is
idle or writing. -/
theorem C5_rd_ready_iff_active_read (i : CombIn) :
    (slowDDR3Comb i).rd_ready = (i.cyc && i.stb && !i.we) := by
  cases hc : i.cyc <;> cases hs : i.stb <;> cases hw : i.we <;>
    simp [slowDDR3Comb_eq, hc, hs, hw, combReset]

/-- C6: during an active read transaction (cyc=1, stb=1, we=0) the
bus's dat_r output equals the controller's rd_data payload sampled in
that same cycle; in particular this holds in the cycle in which ack is
asserted. -/
theorem C6_read_dat_r_eq_rd_data (i : CombIn)
    (hc : i.cyc = true) (hs : i.stb = true) (hw : i.we = false) :
    (slowDDR3Comb i).dat_r = i.sysio_rd_data := by
  simp [slowDDR3Comb_eq, hc, hs, hw]

/-- C6 witness: a concrete active read cycle (in which ack is indeed
asserted) where dat_r mirrors rd_data. -/
theorem C6_read_dat_r_eq_rd_data_witness :
    (slowDDR3Comb
      { cyc := true, stb := true, we := false, sel := 0, sysio_addr := 0,
        sysio_wr_data := 0, sysio_rd_data := 57005, wr_ready := false,
        rd_valid := true }).dat_r = 57005 :=
  C6_read_dat_r_eq_rd_data
    { cyc := true, stb := true, we := false, sel := 0, sysio_addr := 0,
      sysio_wr_data := 0, sysio_rd_data := 57005, wr_ready := false,
      rd_valid := true } rfl rfl rfl

/-- C7: during an active read transaction the bridge asserts ack
unconditionally (ack settles to the value of rd_ready, which the bridge
itself drives to 1), and no bridge-driven output depends on the
controller's rd_valid signal: two input valuations differing only in
rd_valid produce identical settled outputs. -/
theorem C7_read_ack_unconditional_and_rd_valid_noninterference
    (i : CombIn) (v : Bool) :
    (i.cyc = true → i.stb = true → i.we = false →
      (slowDDR3Comb i).ack = true) ∧
    slowDDR3Comb { i with rd_valid := v } = slowDDR3Comb i := by
  constructor
  · intro hc hs hw
    simp [slowDDR3Comb_eq, hc, hs, hw]
  · cases hc : i.cyc <;> cases hs : i.stb <;> cases hw : i.we <;>
      simp [slowDDR3Comb_eq, hc, hs, hw]

/-- C7 witness: at a concrete active read input, ack is asserted and
flipping rd_valid leaves every settled output unchanged. -/
theorem C7_read_ack_unconditional_and_rd_valid_noninterference_witness :
    (slowDDR3Comb
      { cyc := true, stb := true, we := false, sel := 0, sysio_addr := 0,
        sysio_wr_data := 0, sysio_rd_data := 4, wr_ready := false,
        rd_valid := false }).ack = true ∧
    slowDDR3Comb
      { cyc := true, stb := true, we := false, sel := 0, sysio_addr := 0,
        sysio_wr_data := 0, sysio_rd_data := 4, wr_ready := false,
        rd_valid := true } =
    slowDDR3Comb
      { cyc := true, stb := true, we := false, sel := 0, sysio_addr := 0,
        sysio_wr_data := 0, sysio_rd_data := 4, wr_ready := false,
        rd_valid := false } :=
  ⟨(C7_read_ack_unconditional_and_rd_valid_noninterference
      { cyc := true, stb := true, we := false, sel := 0, sysio_addr := 0,
        sysio_wr_data := 0, sysio_rd_data := 4, wr_ready := false,
        rd_valid := false } true).1 rfl rfl rfl,
   (C7_read_ack_unconditional_and_rd_valid_noninterference
      { cyc := true, stb := true, we := false, sel := 0, sysio_addr := 0,
        sysio_wr_data := 0, sysio_rd_data := 4, wr_ready := false,
        rd_valid := false } true).2⟩

/-!
Construction-time configuration checks (ddr3.py lines 51-59): the
constructor runs `assert width == 16` and then `assert bitsize == 2 *
_gbit` before the sysio interface, the wishbone interface or any
hardware statement is created, so a bad configuration raises
AssertionError before any hardware is described.
-/

namespace SlowDDR3

def kbit : Nat := 1024
def mbit : Nat := kbit * 1024
def gbit : Nat := mbit * 1024

/-- The constructor prologue: the two `assert` statements run in source
order before any hardware is described; on success the accepted
configuration is returned. -/
def validateConfig (width bitsize : Nat) : Except String (Nat × Nat) :=
  if width = 16 then
    if bitsize = 2 * gbit then .ok (width, bitsize)
    else .error "AssertionError: bitsize == 2 * _gbit"
  else .error "AssertionError: width == 16"

end SlowDDR3

/-- C8: constructing a SlowDDR3 with a width other than 16 or a bitsize
other than 2 gigabits fails with an assertion error in the constructor
prologue, before any hardware is described, and the single supported
configuration (16, 2 gigabits) passes; no configuration is silently
truncated or accepted. -/
theorem C8_config_asserts (width bitsize : Nat) :
    (SlowDDR3.validateConfig width bitsize).isOk = true ↔
      (width = 16 ∧ bitsize = 2 * SlowDDR3.gbit) := by
  unfold SlowDDR3.validateConfig
  split <;> rename_i h16
  · split <;> rename_i hg
    · simp [h16, hg, Except.isOk, Except.toBool]
    · simp [Except.isOk, Except.toBool, hg]
  · simp [Except.isOk, Except.toBool, h16]

/-!
Command-pad polarity (ddr3.py lines 90-97): the internal active-high
signals cs, cas, ras, we are driven out on the active-low pads by
explicit inversion:

    pads.cs_n.eq(~cs), pads.cas_n.eq(~cas),
    pads.ras_n.eq(~ras), pads.we_n.eq(~we).
-/

namespace SlowDDR3

/-- The four active-low command pads. -/
structure CmdPads where
  cs_n : Bool
  cas_n : Bool
  ras_n : Bool
  we_n : Bool
  deriving Repr, DecidableEq

/-- The comb statements driving the command pads from the internal
active-high signals. -/
def driveCmdPads (cs cas ras we : Bool) : CmdPads :=
  { cs_n := !cs, cas_n := !cas, ras_n := !ras, we_n := !we }

end SlowDDR3

/-- C9: in every cycle and for every value of the internal active-high
signals, each command pad output equals the logical negation of the
corresponding internal signal. -/
theorem C9_cmd_pads_inverted (cs cas ras we : Bool) :
    (SlowDDR3.driveCmdPads cs cas ras we).cs_n = !cs ∧
    (SlowDDR3.driveCmdPads cs cas ras we).cas_n = !cas ∧
    (SlowDDR3.driveCmdPads cs cas ras we).ras_n = !ras ∧
    (SlowDDR3.driveCmdPads cs cas ras we).we_n = !we :=
  ⟨rfl, rfl, rfl, rfl⟩

/-!
Model of `get_signals` (src/litelitedram/utils.py, lines 31-60).  A
Python object reachable by the traversal is modelled by `PyObj`:

  * `scalar`  - a builtin scalar (bool, complex, float, int, type), for
    which `is_builtin_scalar` returns True;
  * `rawseq`  - a raw sequence (bytearray, bytes, range, str,
    memoryview), for which `is_raw_sequence` returns True; its elements
    are scalars or one-character strings, so recursing into them always
    yields the empty set;
  * `signal`  - a migen Signal, identified by an id; a Signal's own
    attributes are ints, strings and lists of tuples, never Signals or
    Records, so inspecting a Signal as an object yields the empty set;
  * `record`  - a migen Record: its dir() exposes its fields as
    attributes (field signals, possibly sub-records) next to layout and
    name entries;
  * `mapping`/`sequence` - a dict-like or list-like container with its
    values/elements; note that when a container is itself the inspected
    object (rather than an attribute), dir() exposes only its methods,
    so the code never visits its elements in that position;
  * `obj`     - any other object, with its non-dunder dir() attributes.

`oid`/`sid` model Python object identity (`id(...)`) used in the
cycle-avoidance stack.  The traversal `get_signals` mirrors the source:
it returns `.error ()` exactly where the source executes `assert False`
(the only exception the source raises), and otherwise the set of ids of
the Signal attributes it collected.
-/

namespace Utils

mutual

inductive PyObj where
  | scalar : PyObj
  | rawseq : PyObj
  | signal (sid : Nat) : PyObj
  | record (oid : Nat) (attrs : AttrList) : PyObj
  | mapping (oid : Nat) (vals : ObjList) : PyObj
  | sequence (oid : Nat) (vals : ObjList) : PyObj
  | obj (oid : Nat) (attrs : AttrList) : PyObj

inductive AttrList where
  | nil : AttrList
  | cons (attr_name : String) (attr : PyObj) (rest : AttrList) : AttrList

inductive ObjList where
  | nil : ObjList
  | cons (v : PyObj) (rest : ObjList) : ObjList

end

/-- Source: `attr_name[:2] == "__" and attr_name[-2:] == "__"` (for a
string shorter than two characters both slices are the whole string, as
in Python). -/
def is_attr_builtin (attr_name : String) : Bool :=
  (attr_name.toList.take 2 == ['_', '_']) &&
  ((attr_name.toList.reverse.take 2).reverse == ['_', '_'])

/-- Source `is_builtin_scalar`: bool, complex, float, int, type. -/
def is_builtin_scalar : PyObj → Bool
  | .scalar => true
  | _ => false

/-- Source `is_raw_sequence`: bytearray, bytes, range, str, memoryview. -/
def is_raw_sequence : PyObj → Bool
  | .rawseq => true
  | _ => false

/-- Python id of an object, for the cycle-avoidance stack.  Scalars and
raw sequences have ids too, but the source returns the empty set for
them regardless of the stack, so their ids never matter. -/
def pyId : PyObj → Option Nat
  | .scalar => none
  | .rawseq => none
  | .signal sid => some sid
  | .record oid _ => some oid
  | .mapping oid _ => some oid
  | .sequence oid _ => some oid
  | .obj oid _ => some oid

/-- The test `id(obj) in stack`. -/
def idOnStack (o : PyObj) (stack : List Nat) : Bool :=
  match pyId o with
  | some i => stack.contains i
  | none => false

/-- The stack extension `stack | set([id(obj), id(attr)])` contributes
the attribute's id when it is modelled. -/
def pyIdCons (o : PyObj) (stack : List Nat) : List Nat :=
  match pyId o with
  | some i => i :: stack
  | none => stack

mutual

/-- `get_signals(obj, recurse, stack)`.  Returns `.error ()` exactly
where the source raises AssertionError (`assert False` on meeting a
Record attribute), otherwise the set of ids of the collected Signal
attributes.  The branches for signal, mapping and sequence objects in
inspected position return the empty set: their dir() holds no Signal,
Record, mapping or sequence attributes (see the module comment). -/
def get_signals (o : PyObj) (recurse : Bool) (stack : List Nat) :
    Except Unit (Finset Nat) :=
  if idOnStack o stack then .ok ∅
  else if is_builtin_scalar o || is_raw_sequence o then .ok ∅
  else
    match o with
    | .scalar => .ok ∅
    | .rawseq => .ok ∅
    | .signal _ => .ok ∅
    | .mapping _ _ => .ok ∅
    | .sequence _ _ => .ok ∅
    | .record oid attrs => get_signals_attrs oid attrs recurse stack
    | .obj oid attrs => get_signals_attrs oid attrs recurse stack

/-- The `for attr_name in dir(obj)` loop of `get_signals`; `oid` is the
id of the object whose attributes are being walked.  The first Record
attribute aborts the whole call with the assertion error; errors from
recursive calls propagate the same way. -/
def get_signals_attrs (oid : Nat) (l : AttrList) (recurse : Bool)
    (stack : List Nat) : Except Unit (Finset Nat) :=
  match l with
  | .nil => .ok ∅
  | .cons attr_name attr rest =>
    match get_signals_attr oid attr_name attr recurse stack with
    | .error e => .error e
    | .ok acc =>
      match get_signals_attrs oid rest recurse stack with
      | .error e => .error e
      | .ok tail => .ok (acc ∪ tail)

/-- One iteration of the attribute loop: the dunder-name filter, then
the isinstance dispatch of the source (Signal, Record - where the
source runs `assert False` -, Mapping, Sequence with recursion enabled,
and the final recursive default branch). -/
def get_signals_attr (oid : Nat) (attr_name : String) (attr : PyObj)
    (recurse : Bool) (stack : List Nat) : Except Unit (Finset Nat) :=
  if is_attr_builtin attr_name then .ok ∅
  else
    match attr with
    | .signal sid => .ok {sid}
    | .record _ _ => .error ()
    | .mapping aid vals =>
      if recurse then get_signals_vals vals (aid :: oid :: stack)
      else .ok ∅
    | .sequence aid vals =>
      if recurse then get_signals_vals vals (aid :: oid :: stack)
      else .ok ∅
    | .rawseq => .ok ∅
    | other =>
      if recurse then get_signals other true (pyIdCons other (oid :: stack))
      else .ok ∅

/-- The `for v in attr.values()` / `for v in attr` loops: each value is
recursed into with `recurse=True` and the extended stack. -/
def get_signals_vals (l : ObjList) (stack : List Nat) :
    Except Unit (Finset Nat) :=
  match l with
  | .nil => .ok ∅
  | .cons v rest =>
    match get_signals v true stack with
    | .error e => .error e
    | .ok a =>
      match get_signals_vals rest stack with
      | .error e => .error e
      | .ok b => .ok (a ∪ b)

end

/-- An attribute value is a migen Record. -/
def PyObj.isRecord : PyObj → Bool
  | .record _ _ => true
  | _ => false

/-- The object has at least one non-builtin attribute that is a Record
(the situation C10 is about). -/
def AttrList.hasRecordAttr : AttrList → Bool
  | .nil => false
  | .cons attr_name attr rest =>
    (!is_attr_builtin attr_name && attr.isRecord) || hasRecordAttr rest

mutual

/-- The traversal of `get_signals` reaches a Record in attribute
position: the specification-side description of "some inspected
attribute is a Record", defined independently of the Except plumbing. -/
def inspects_record (o : PyObj) (recurse : Bool) (stack : List Nat) :
    Bool :=
  if idOnStack o stack then false
  else if is_builtin_scalar o || is_raw_sequence o then false
  else
    match o with
    | .scalar => false
    | .rawseq => false
    | .signal _ => false
    | .mapping _ _ => false
    | .sequence _ _ => false
    | .record oid attrs => inspects_record_attrs oid attrs recurse stack
    | .obj oid attrs => inspects_record_attrs oid attrs recurse stack

def inspects_record_attrs (oid : Nat) (l : AttrList) (recurse : Bool)
    (stack : List Nat) : Bool :=
  match l with
  | .nil => false
  | .cons attr_name attr rest =>
    inspects_record_attr oid attr_name attr recurse stack
    || inspects_record_attrs oid rest recurse stack

def inspects_record_attr (oid : Nat) (attr_name : String) (attr : PyObj)
    (recurse : Bool) (stack : List Nat) : Bool :=
  if is_attr_builtin attr_name then false
  else
    match attr with
    | .signal _ => false
    | .record _ _ => true
    | .mapping aid vals =>
      recurse && inspects_record_vals vals (aid :: oid :: stack)
    | .sequence aid vals =>
      recurse && inspects_record_vals vals (aid :: oid :: stack)
    | .rawseq => false
    | other =>
      recurse && inspects_record other true (pyIdCons other (oid :: stack))

def inspects_record_vals (l : ObjList) (stack : List Nat) : Bool :=
  match l with
  | .nil => false
  | .cons v rest =>
    inspects_record v true stack || inspects_record_vals rest stack

end

/-- The call raised the AssertionError (the only exception the source
can raise on this path). -/
def raisesAssert {α : Type} : Except Unit α → Bool
  | .error _ => true
  | .ok _ => false

end Utils

open Utils

mutual

theorem inspects_record_error :
    ∀ (o : PyObj) (recurse : Bool) (stack : List Nat),
      inspects_record o recurse stack = true →
      raisesAssert (get_signals o recurse stack) = true
  | .scalar, recurse, stack, h => by
      simp [inspects_record, idOnStack, pyId, is_builtin_scalar,
        is_raw_sequence] at h
  | .rawseq, recurse, stack, h => by
      simp [inspects_record, idOnStack, pyId, is_builtin_scalar,
        is_raw_sequence] at h
  | .signal sid, recurse, stack, h => by
      simp [inspects_record, idOnStack, pyId, is_builtin_scalar,
        is_raw_sequence] at h
  | .mapping oid vals, recurse, stack, h => by
      simp [inspects_record, idOnStack, pyId, is_builtin_scalar,
        is_raw_sequence] at h
  | .sequence oid vals, recurse, stack, h => by
      simp [inspects_record, idOnStack, pyId, is_builtin_scalar,
        is_raw_sequence] at h
  | .record oid attrs, recurse, stack, h => by
      rw [inspects_record] at h
      rw [get_signals]
      by_cases hid : idOnStack (.record oid attrs) stack = true
      · simp [hid] at h
      · simp only [Bool.not_eq_true] at hid
        simp only [hid, Bool.false_eq_true, if_false, is_builtin_scalar,
          is_raw_sequence, Bool.or_self] at h ⊢
        exact inspects_record_attrs_error oid attrs recurse stack h
  | .obj oid attrs, recurse, stack, h => by
      rw [inspects_record] at h
      rw [get_signals]
      by_cases hid : idOnStack (.obj oid attrs) stack = true
      · simp [hid] at h
      · simp only [Bool.not_eq_true] at hid
        simp only [hid, Bool.false_eq_true, if_false, is_builtin_scalar,
          is_raw_sequence, Bool.or_self] at h ⊢
        exact inspects_record_attrs_error oid attrs recurse stack h

theorem inspects_record_attrs_error :
    ∀ (oid : Nat) (l : AttrList) (recurse : Bool) (stack : List Nat),
      inspects_record_attrs oid l recurse stack = true →
      raisesAssert (get_signals_attrs oid l recurse stack) = true
  | oid, .nil, recurse, stack, h => by
      simp [inspects_record_attrs] at h
  | oid, .cons attr_name attr rest, recurse, stack, h => by
      simp only [inspects_record_attrs, Bool.or_eq_true] at h
      simp only [get_signals_attrs]
      cases hh : get_signals_attr oid attr_name attr recurse stack with
      | error e => simp [raisesAssert]
      | ok acc =>
        have hhead :
            inspects_record_attr oid attr_name attr recurse stack = false := by
          by_contra hx
          simp only [Bool.not_eq_false] at hx
          have hra :=
            inspects_record_attr_error oid attr_name attr recurse stack hx
          rw [hh] at hra
          simp [raisesAssert] at hra
        rcases h with h | h
        · rw [hhead] at h; cases h
        · have ht := inspects_record_attrs_error oid rest recurse stack h
          cases hr : get_signals_attrs oid rest recurse stack with
          | error e => simp [raisesAssert]
          | ok tail => rw [hr] at ht; simp [raisesAssert] at ht

theorem inspects_record_attr_error :
    ∀ (oid : Nat) (attr_name : String) (attr : PyObj) (recurse : Bool)
      (stack : List Nat),
      inspects_record_attr oid attr_name attr recurse stack = true →
      raisesAssert (get_signals_attr oid attr_name attr recurse stack) = true
  | oid, attr_name, .signal sid, recurse, stack, h => by
      simp [inspects_record_attr] at h
  | oid, attr_name, .scalar, recurse, stack, h => by
      simp [inspects_record_attr, inspects_record, idOnStack, pyId,
        is_builtin_scalar, is_raw_sequence] at h
  | oid, attr_name, .rawseq, recurse, stack, h => by
      simp [inspects_record_attr] at h
  | oid, attr_name, .record rid rattrs, recurse, stack, h => by
      by_cases hb : is_attr_builtin attr_name = true
      · simp [inspects_record_attr, hb] at h
      · simp [get_signals_attr, hb, raisesAssert]
  | oid, attr_name, .mapping aid vals, recurse, stack, h => by
      by_cases hb : is_attr_builtin attr_name = true
      · simp [inspects_record_attr, hb] at h
      · simp only [inspects_record_attr, hb, Bool.false_eq_true, if_false,
          Bool.and_eq_true] at h
        obtain ⟨hr, hv⟩ := h
        have hva := inspects_record_vals_error vals (aid :: oid :: stack) hv
        simp [get_signals_attr, hb, hr, hva]
  | oid, attr_name, .sequence aid vals, recurse, stack, h => by
      by_cases hb : is_attr_builtin attr_name = true
      · simp [inspects_record_attr, hb] at h
      · simp only [inspects_record_attr, hb, Bool.false_eq_true, if_false,
          Bool.and_eq_true] at h
        obtain ⟨hr, hv⟩ := h
        have hva := inspects_record_vals_error vals (aid :: oid :: stack) hv
        simp [get_signals_attr, hb, hr, hva]
  | oid, attr_name, .obj oid2 attrs2, recurse, stack, h => by
      by_cases hb : is_attr_builtin attr_name = true
      · simp [inspects_record_attr, hb] at h
      · simp only [inspects_record_attr, hb, Bool.false_eq_true, if_false,
          Bool.and_eq_true] at h
        obtain ⟨hr, hv⟩ := h
        have hva :=
          inspects_record_error (.obj oid2 attrs2) true
            (pyIdCons (.obj oid2 attrs2) (oid :: stack)) hv
        simp [get_signals_attr, hb, hr, hva]

theorem inspects_record_vals_error :
    ∀ (l : ObjList) (stack : List Nat),
      inspects_record_vals l stack = true →
      raisesAssert (get_signals_vals l stack) = true
  | .nil, stack, h => by simp [inspects_record_vals] at h
  | .cons v rest, stack, h => by
      simp only [inspects_record_vals, Bool.or_eq_true] at h
      simp only [get_signals_vals]
      cases hv : get_signals v true stack with
      | error e => simp [raisesAssert]
      | ok a =>
        have hvi : inspects_record v true stack = false := by
          by_contra hx
          simp only [Bool.not_eq_false] at hx
          have hra := inspects_record_error v true stack hx
          rw [hv] at hra
          simp [raisesAssert] at hra
        rcases h with h | h
        · rw [hvi] at h; cases h
        · have ht := inspects_record_vals_error rest stack h
          cases hr : get_signals_vals rest stack with
          | error e => simp [raisesAssert]
          | ok b => rw [hr] at ht; simp [raisesAssert] at ht

end

/-- An object with a non-builtin Record attribute makes the traversal
reach a Record already in its own attribute walk. -/
theorem hasRecordAttr_inspects :
    ∀ (oid : Nat) (l : AttrList) (recurse : Bool) (stack : List Nat),
      l.hasRecordAttr = true →
      inspects_record_attrs oid l recurse stack = true
  | oid, .nil, recurse, stack, h => by
      simp [AttrList.hasRecordAttr] at h
  | oid, .cons attr_name attr rest, recurse, stack, h => by
      simp only [AttrList.hasRecordAttr, Bool.or_eq_true, Bool.and_eq_true,
        Bool.not_eq_true'] at h
      simp only [inspects_record_attrs, Bool.or_eq_true]
      rcases h with ⟨hnb, hrec⟩ | h
      · left
        cases attr <;> simp [PyObj.isRecord] at hrec
        simp [inspects_record_attr, hnb]
      · right
        exact hasRecordAttr_inspects oid rest recurse stack h

/-- C10: for every object that has at least one non-builtin attribute
that is a migen Record, get_signals raises AssertionError instead of
returning a signal set; and get_signals returns normally (some possibly
empty set of signals) only when the traversal inspects no Record in
attribute position. -/
theorem C10_get_signals_record_asserts :
    (∀ (oid : Nat) (attrs : AttrList) (recurse : Bool),
        attrs.hasRecordAttr = true →
        raisesAssert (get_signals (.obj oid attrs) recurse []) = true) ∧
    (∀ (o : PyObj) (recurse : Bool) (s : Finset Nat),
        get_signals o recurse [] = .ok s →
        inspects_record o recurse [] = false) := by
  constructor
  · intro oid attrs recurse h
    apply inspects_record_error
    rw [inspects_record]
    simp only [idOnStack, pyId, List.contains_nil, Bool.false_eq_true,
      if_false, is_builtin_scalar, is_raw_sequence, Bool.or_self]
    exact hasRecordAttr_inspects oid attrs recurse [] h
  · intro o recurse s hok
    by_contra hx
    simp only [Bool.not_eq_false] at hx
    have hra := inspects_record_error o recurse [] hx
    rw [hok] at hra
    simp [raisesAssert] at hra

/-- C10 witness: a concrete object with one Record attribute makes the
call raise; a concrete object with a single Signal attribute and no
Record anywhere returns normally and indeed inspects no Record. -/
theorem C10_get_signals_record_asserts_witness :
    raisesAssert
      (get_signals (.obj 1 (.cons "fld" (.record 7 .nil) .nil)) false []) =
      true ∧
    inspects_record (.obj 1 (.cons "sig" (.signal 3) .nil)) true [] = false :=
  ⟨C10_get_signals_record_asserts.1 1 (.cons "fld" (.record 7 .nil) .nil)
      false
      (by simp [AttrList.hasRecordAttr, PyObj.isRecord, is_attr_builtin]),
   C10_get_signals_record_asserts.2 (.obj 1 (.cons "sig" (.signal 3) .nil))
      true {3}
      (by simp [get_signals, get_signals_attrs, get_signals_attr, idOnStack,
        pyId, is_builtin_scalar, is_raw_sequence, is_attr_builtin])⟩
